import Mathlib

/-!
Verification of `src/web_scraping/gko_driver_installer.py`
(class `GeckoDriverInstaller`).

The Python class is shallowly embedded below.  Paths are lists of
components, the filesystem is an explicit finite map of files (with their
content kind) and a set of directories, Python exceptions become an error
type carried in `StepResult` together with the object state and the
filesystem at the moment the exception escapes, and observable actions
(network retrieval, step invocation, error reporting) are recorded as an
event trace.
-/

set_option autoImplicit false

namespace Gecko

/-- A filesystem path, as its list of components. -/
abbrev FsPath := List String

/-- Python `pathlib.Path.name`: the final component (empty for the empty path). -/
def pathName (p : FsPath) : String := (p.getLast?).getD ""

/-- Python `str.lower()` (the OS identifiers at hand are ASCII). -/
def pyLower (s : String) : String := String.mk (s.data.map Char.toLower)

/-- Python `str.endswith(suff)`. -/
def strEndsWith (s suff : String) : Bool := suff.data.isSuffixOf s.data

/-- Python `str.rfind` on the dot character: the index of the last dot, when there is one. -/
def lastDotIdx : List Char → Option Nat
  | [] => none
  | c :: cs =>
      match lastDotIdx cs with
      | some i => some (i + 1)
      | none => if c == '.' then some 0 else none

/-- Python `pathlib.Path.suffix`: from the last dot of the final component,
provided that dot is neither the first nor the last character; otherwise
the empty string.  (CPython: `i = name.rfind('.'); name[i:] if
0 < i < len(name) - 1 else ''`.) -/
def pySuffix (name : String) : String :=
  match lastDotIdx name.data with
  | none => ""
  | some i =>
      if 0 < i ∧ i < name.data.length - 1 then String.mk (name.data.drop i) else ""

/-- Content stored at a file path: opaque bytes, a well-formed zip archive
with the given member names, or a well-formed gzipped tar archive with the
given member names. -/
inductive FileData where
  | plain
  | zipArchive (entries : List String)
  | gzTarArchive (entries : List String)
deriving DecidableEq, Repr

/-- The filesystem: files with their data, and directories. -/
structure FS where
  files : List (FsPath × FileData)
  dirs : List FsPath
deriving DecidableEq, Repr

def FS.empty : FS := ⟨[], []⟩

def FS.fileExists (fs : FS) (p : FsPath) : Bool :=
  fs.files.any (fun e => e.1 == p)

def FS.dirExists (fs : FS) (p : FsPath) : Bool :=
  fs.dirs.any (fun d => d == p)

/-- Python `Path.exists()`: true for a file or a directory. -/
def FS.exists (fs : FS) (p : FsPath) : Bool :=
  fs.fileExists p || fs.dirExists p

def FS.lookupFile (fs : FS) (p : FsPath) : Option FileData :=
  (fs.files.find? (fun e => e.1 == p)).map (fun e => e.2)

def FS.createFile (fs : FS) (p : FsPath) (d : FileData) : FS :=
  { fs with files := (p, d) :: fs.files.filter (fun e => !(e.1 == p)) }

def FS.removeFile (fs : FS) (p : FsPath) : FS :=
  { fs with files := fs.files.filter (fun e => !(e.1 == p)) }

def FS.createDir (fs : FS) (p : FsPath) : FS :=
  { fs with dirs := if fs.dirs.any (fun d => d == p) then fs.dirs else p :: fs.dirs }

/-- Python `shutil.rmtree` / `TemporaryDirectory` teardown: removes `p` and
everything strictly below it. -/
def FS.removeTree (fs : FS) (p : FsPath) : FS :=
  ⟨fs.files.filter (fun e => !(p.isPrefixOf e.1)),
   fs.dirs.filter (fun d => !(p.isPrefixOf d))⟩

/-- Freshness: `t` is a fresh directory for `fs`: nothing in `fs` lies at or below `t`
(the contract of `tempfile.TemporaryDirectory`). -/
def FS.fresh (fs : FS) (t : FsPath) : Bool :=
  fs.files.all (fun e => !(t.isPrefixOf e.1)) && fs.dirs.all (fun d => !(t.isPrefixOf d))

/-- Replace the prefix `src` of a path with `dst` (used for directory renames). -/
def replaceRoot (src dst p : FsPath) : FsPath :=
  if src.isPrefixOf p then dst ++ p.drop src.length else p

def FS.renameTree (fs : FS) (src dst : FsPath) : FS :=
  ⟨fs.files.map (fun e => (replaceRoot src dst e.1, e.2)),
   fs.dirs.map (replaceRoot src dst)⟩

/-- The Python exceptions the embedded methods can raise. -/
inductive PyErr where
  | osError (msg : String)
  | valueError (msg : String)
  | runtimeError (msg : String)
  | fileNotFoundError (msg : String)
  | isADirectoryError (msg : String)
  | notADirectoryError (msg : String)
  | badZipFile (msg : String)
  | tarReadError (msg : String)
  | attributeError (msg : String)
  | shutilError (msg : String)
deriving DecidableEq, Repr

/-- Python `os.rename src dst` (same filesystem): a file replaces any existing
destination file; a directory is renamed wholesale.  The callers below have
already checked that `src` exists. -/
def osRename (fs : FS) (src dst : FsPath) : FS :=
  match fs.lookupFile src with
  | some d => (fs.removeFile src).createFile dst d
  | none => if fs.dirExists src then fs.renameTree src dst else fs

/-- CPython `shutil.move src dst`: when `dst` is an existing directory,
the real destination is `dst / basename src`, and if that real destination
already exists the call raises `shutil.Error` (when `src` IS `dst` it is
renamed onto itself instead); otherwise the source is renamed to the
destination. -/
def shutilMove (fs : FS) (src dst : FsPath) : Except PyErr FS :=
  if fs.dirExists dst then
    if src == dst then .ok (osRename fs src dst)
    else
      let realDst := dst ++ [pathName src]
      if fs.exists realDst then .error (.shutilError "Destination path already exists")
      else .ok (osRename fs src realDst)
  else .ok (osRename fs src dst)

/-- The mutable fields of a `GeckoDriverInstaller` object. -/
structure InstallerState where
  target_dir : FsPath
  download_url : Option String
  download_path : Option FsPath
  extract_path : Option FsPath
deriving DecidableEq, Repr

/-- Outcome of one method call: normal return, or an escaping exception;
both carry the object state and the filesystem at that moment. -/
inductive StepResult where
  | ok (s : InstallerState) (fs : FS)
  | err (e : PyErr) (s : InstallerState) (fs : FS)
deriving DecidableEq, Repr

def StepResult.isOk : StepResult → Bool
  | .ok _ _ => true
  | .err _ _ _ => false

def StepResult.fsOf : StepResult → FS
  | .ok _ fs => fs
  | .err _ _ fs => fs

def StepResult.isFileNotFound : StepResult → Bool
  | .err (.fileNotFoundError _) _ _ => true
  | _ => false

def StepResult.stateOf : StepResult → InstallerState
  | .ok s _ => s
  | .err _ s _ => s

/-- Observable actions: a network retrieval of a URL, entry into a pipeline
step inside `install`, and the error report printed by `install`. -/
inductive StepName where
  | download
  | extract
  | move
  | cleanup
deriving DecidableEq, Repr

inductive Event where
  | network (url : String)
  | ranStep (n : StepName)
  | reported (e : PyErr)
deriving DecidableEq, Repr

/-- Model of `GeckoDriverInstaller.__init__`: records the target directory, leaves
the url and paths unset, and raises `ValueError` when the
`GECKODRIVER_PATH` environment entry is absent or empty. -/
def construct (target_dir : FsPath) (geckodriver_env : Option String) :
    Except PyErr InstallerState :=
  match geckodriver_env with
  | none => .error (.valueError "GeckoDriver path not set in the .env file.")
  | some v =>
      if v == "" then .error (.valueError "GeckoDriver path not set in the .env file.")
      else .ok ⟨target_dir, none, none, none⟩

/-- The object state right after a successful construction. -/
def initState (target_dir : FsPath) : InstallerState :=
  ⟨target_dir, none, none, none⟩

def winUrl : String :=
  "https://github.com/mozilla/geckodriver/releases/download/v0.31.0/geckodriver-v0.31.0-win64.zip"

def macUrl : String :=
  "https://github.com/mozilla/geckodriver/releases/download/v0.31.0/geckodriver-v0.31.0-macos.tar.gz"

def linuxUrl : String :=
  "https://github.com/mozilla/geckodriver/releases/download/v0.31.0/geckodriver-v0.31.0-linux64.tar.gz"

/-- Model of `GeckoDriverInstaller.get_download_url`.  Here `system` is the value of
`platform.system()`; the method lowercases it and branches. -/
def get_download_url (system : String) (st : InstallerState) :
    Except PyErr (String × InstallerState) :=
  let sys := pyLower system
  if sys == "windows" then .ok (winUrl, { st with download_url := some winUrl })
  else if sys == "darwin" then .ok (macUrl, { st with download_url := some macUrl })
  else if sys == "linux" then .ok (linuxUrl, { st with download_url := some linuxUrl })
  else .error (.osError "Unsupported operating system.")

/-- Model of `GeckoDriverInstaller.download_geckodriver`.  Here `net url` is the content
the network returns for `url` (`none` models a transport failure, turned
into `RuntimeError`).  `tempDir` is the fresh directory `TemporaryDirectory`
creates; the `with` block removes it and its contents on every exit path.
The event trace records the `urllib.request.urlretrieve` call. -/
def download_geckodriver (system : String) (net : String → Option FileData)
    (tempDir : FsPath) (st : InstallerState) (fs : FS) : List Event × StepResult :=
  match get_download_url system st with
  | .error e => ([], .err e st fs)
  | .ok (url, st1) =>
      let fs1 := fs.createDir tempDir
      let dp := tempDir ++ ["geckodriver_downloaded"]
      let st2 := { st1 with download_path := some dp }
      match net url with
      | some d =>
          ([.network url], .ok st2 (((fs1.createFile dp d).removeTree tempDir)))
      | none =>
          ([.network url],
           .err (.runtimeError "Error downloading GeckoDriver") st2 (fs1.removeTree tempDir))

/-- Model of `GeckoDriverInstaller.extract_file`.  Dispatches on
`self.download_path.suffix`; opening the archive raises `FileNotFoundError`
when the path is absent (`IsADirectoryError` when it is a directory,
`BadZipFile`/`tarfile.ReadError` when the content is not an archive of the
expected kind); `self.extract_path` is assigned only after a successful
open, and `extractall` creates the staging directory and its members. -/
def extract_file (st : InstallerState) (fs : FS) : StepResult :=
  match st.download_path with
  | none => .err (.attributeError "NoneType object has no attribute") st fs
  | some dp =>
      if pySuffix (pathName dp) == ".zip" then
        if fs.fileExists dp then
          match fs.lookupFile dp with
          | some (.zipArchive entries) =>
              let ep := st.target_dir ++ ["geckodriver"]
              let st1 := { st with extract_path := some ep }
              .ok st1 (entries.foldl (fun acc e => acc.createFile (ep ++ [e]) .plain)
                        (fs.createDir ep))
          | _ => .err (.badZipFile "File is not a zip file") st fs
        else if fs.dirExists dp then .err (.isADirectoryError "Is a directory") st fs
        else .err (.fileNotFoundError "No such file or directory") st fs
      else if pySuffix (pathName dp) == ".tar.gz" then
        if fs.fileExists dp then
          match fs.lookupFile dp with
          | some (.gzTarArchive entries) =>
              let ep := st.target_dir ++ ["geckodriver"]
              let st1 := { st with extract_path := some ep }
              .ok st1 (entries.foldl (fun acc e => acc.createFile (ep ++ [e]) .plain)
                        (fs.createDir ep))
          | _ => .err (.tarReadError "file could not be opened successfully") st fs
        else if fs.dirExists dp then .err (.isADirectoryError "Is a directory") st fs
        else .err (.fileNotFoundError "No such file or directory") st fs
      else
        .err (.valueError "Unsupported file format. It must be .zip or .tar.gz.") st fs

/-- The platform-dependent binary name chosen by `move_geckodriver`:
`"geckodriver" if platform.system().lower() != "windows" else
"geckodriver.exe"`. -/
def binName (system : String) : String :=
  if pyLower system != "windows" then "geckodriver" else "geckodriver.exe"

/-- Model of `GeckoDriverInstaller.move_geckodriver`: picks the platform-dependent
binary name, raises `FileNotFoundError` when it is absent from the staging
directory, otherwise `shutil.move`s it to the target directory. -/
def move_geckodriver (system : String) (st : InstallerState) (fs : FS) : StepResult :=
  let geckodriver_filename := binName system
  match st.extract_path with
  | none => .err (.attributeError "NoneType object has no attribute") st fs
  | some ep =>
      let extracted := ep ++ [geckodriver_filename]
      if !(fs.exists extracted) then
        .err (.fileNotFoundError "The file was not found in the extraction path.") st fs
      else
        match shutilMove fs extracted (st.target_dir ++ [geckodriver_filename]) with
        | .ok fs1 => .ok st fs1
        | .error e => .err e st fs

/-- Model of `GeckoDriverInstaller.clean_up`: unlinks the downloaded archive when its
path is set and exists (`unlink` on a directory raises
`IsADirectoryError`), then removes the extraction tree when its path is set
and exists (`rmtree` on a non-directory raises `NotADirectoryError`). -/
def clean_up (st : InstallerState) (fs : FS) : StepResult :=
  let step1 : Except PyErr FS :=
    match st.download_path with
    | none => .ok fs
    | some dp =>
        if fs.exists dp then
          if fs.fileExists dp then .ok (fs.removeFile dp)
          else .error (.isADirectoryError "Is a directory")
        else .ok fs
  match step1 with
  | .error e => .err e st fs
  | .ok fs1 =>
      match st.extract_path with
      | none => .ok st fs1
      | some ep =>
          if fs1.exists ep then
            if fs1.dirExists ep then .ok st (fs1.removeTree ep)
            else .err (.notADirectoryError "Not a directory") st fs1
          else .ok st fs1

/-- The filesystem left behind by `clean_up`, whether it returned or raised. -/
def cleanupFS (st : InstallerState) (fs : FS) : FS := (clean_up st fs).fsOf

/-- Model of `GeckoDriverInstaller.install`: runs download, extract, move, clean_up
in order inside `try`; any exception is caught, reported, and answered by a
second `clean_up` call in the handler (whose own exception, if any, would
propagate).  The trace records each step entered and the report. -/
def install (system : String) (net : String → Option FileData) (tempDir : FsPath)
    (st : InstallerState) (fs : FS) : List Event × StepResult :=
  let handle (pre : List Event) (e : PyErr) (s : InstallerState) (f : FS) :
      List Event × StepResult :=
    (pre ++ [.reported e, .ranStep .cleanup], clean_up s f)
  let (ev1, r1) := download_geckodriver system net tempDir st fs
  let tr1 := [Event.ranStep .download] ++ ev1
  match r1 with
  | .err e s1 f1 => handle tr1 e s1 f1
  | .ok s1 f1 =>
      let tr2 := tr1 ++ [Event.ranStep .extract]
      match extract_file s1 f1 with
      | .err e s2 f2 => handle tr2 e s2 f2
      | .ok s2 f2 =>
          let tr3 := tr2 ++ [Event.ranStep .move]
          match move_geckodriver system s2 f2 with
          | .err e s3 f3 => handle tr3 e s3 f3
          | .ok s3 f3 =>
              let tr4 := tr3 ++ [Event.ranStep .cleanup]
              match clean_up s3 f3 with
              | .err e s4 f4 => handle tr4 e s4 f4
              | .ok s4 f4 => (tr4, .ok s4 f4)

/-- The pipeline steps entered during a trace, in order. -/
def stepsOf (tr : List Event) : List StepName :=
  tr.filterMap (fun ev => match ev with | .ranStep n => some n | _ => none)

/-- The network retrievals in a trace, in order. -/
def networkCalls (tr : List Event) : List String :=
  tr.filterMap (fun ev => match ev with | .network u => some u | _ => none)

/-- Whether the trace contains an error report (the `print` in `install`'s
`except` handler). -/
def errReported (tr : List Event) : Bool :=
  tr.any (fun ev => match ev with | .reported _ => true | _ => false)

/-- An optional path that is unset, or set but pointing at nothing on disk
(the situation before any download has happened). -/
def pathUnsetOrMissing (fs : FS) (po : Option FsPath) : Bool :=
  match po with
  | none => true
  | some p => !(fs.exists p)

/-- The step outcome of running `download_geckodriver` on a freshly
constructed installer. -/
def afterDownload (system : String) (net : String → Option FileData)
    (tempDir target : FsPath) (fs : FS) : StepResult :=
  (download_geckodriver system net tempDir (initState target) fs).2

/-! ### Helper lemmas -/

theorem pathName_concat (t : FsPath) (x : String) : pathName (t ++ [x]) = x := by
  unfold pathName
  rw [List.getLast?_concat]
  rfl

theorem isPrefixOf_append_self (t l : FsPath) : t.isPrefixOf (t ++ l) = true := by
  rw [List.isPrefixOf_iff_prefix]
  exact List.prefix_append t l

theorem isPrefixOf_self (t : FsPath) : t.isPrefixOf t = true := by
  rw [List.isPrefixOf_iff_prefix]

theorem FS.exists_removeTree_of_pre (fs : FS) {p q : FsPath} (h : p.isPrefixOf q = true) :
    (fs.removeTree p).exists q = false := by
  simp only [FS.exists, FS.removeTree, FS.fileExists, FS.dirExists, Bool.or_eq_false_iff,
    List.any_eq_false, List.mem_filter, beq_iff_eq]
  constructor
  · rintro e ⟨-, hpre⟩ rfl
    rw [h] at hpre
    exact absurd hpre (by simp)
  · rintro d ⟨-, hpre⟩ rfl
    rw [h] at hpre
    exact absurd hpre (by simp)

theorem FS.removeTree_createFile_below (fs : FS) {t dp : FsPath} (d : FileData)
    (h : t.isPrefixOf dp = true) :
    (fs.createFile dp d).removeTree t = fs.removeTree t := by
  have hpred : (fun (e : FsPath × FileData) => !(t.isPrefixOf e.1) && !(e.1 == dp)) =
      (fun e => !(t.isPrefixOf e.1)) := by
    funext e
    by_cases hd : e.1 = dp
    · rw [hd, h]
      simp
    · simp [hd]
  simp only [FS.createFile, FS.removeTree, List.filter_cons, h, Bool.not_true,
    List.filter_filter, hpred]
  simp

theorem FS.removeTree_createDir_self (fs : FS) (t : FsPath) :
    (fs.createDir t).removeTree t = fs.removeTree t := by
  simp only [FS.createDir, FS.removeTree]
  split
  · rfl
  · simp [List.filter_cons, isPrefixOf_self]

theorem FS.removeTree_eq_of_fresh {fs : FS} {t : FsPath} (h : fs.fresh t = true) :
    fs.removeTree t = fs := by
  obtain ⟨h1, h2⟩ := Bool.and_eq_true_iff.mp h
  simp only [FS.removeTree]
  cases fs with
  | mk files dirs =>
      simp only [FS.mk.injEq]
      constructor
      · exact List.filter_eq_self.mpr (fun e he => List.all_eq_true.mp h1 e he)
      · exact List.filter_eq_self.mpr (fun e he => List.all_eq_true.mp h2 e he)

theorem FS.exists_of_fresh {fs : FS} {t q : FsPath} (h : fs.fresh t = true)
    (hpre : t.isPrefixOf q = true) : fs.exists q = false := by
  rw [← FS.removeTree_eq_of_fresh h]
  exact FS.exists_removeTree_of_pre fs hpre

theorem lastDotIdx_none_no_dot {cs : List Char} (h : lastDotIdx cs = none) :
    ∀ c ∈ cs, c ≠ '.' := by
  induction cs with
  | nil => intro c hc; cases hc
  | cons a cs ih =>
      intro c hc
      unfold lastDotIdx at h
      cases hrec : lastDotIdx cs with
      | some j => rw [hrec] at h; cases h
      | none =>
          rw [hrec] at h
          rcases List.mem_cons.mp hc with rfl | hmem
          · intro hcdot
            rw [hcdot] at h
            simp at h
          · exact ih hrec c hmem

theorem lastDotIdx_no_dot_after {cs : List Char} {i : Nat} (h : lastDotIdx cs = some i) :
    ∀ c ∈ cs.drop (i + 1), c ≠ '.' := by
  induction cs generalizing i with
  | nil => cases h
  | cons a cs ih =>
      unfold lastDotIdx at h
      cases hrec : lastDotIdx cs with
      | some j =>
          rw [hrec] at h
          cases h
          intro c hc
          exact ih hrec c hc
      | none =>
          rw [hrec] at h
          by_cases ha : a = '.'
          · rw [ha] at h
            simp at h
            cases h
            intro c hc
            exact lastDotIdx_none_no_dot hrec c hc
          · simp [ha] at h

theorem pySuffix_ne_targz (name : String) : pySuffix name ≠ ".tar.gz" := by
  cases h : lastDotIdx name.data with
  | none => simp [pySuffix, h]
  | some i =>
      simp only [pySuffix, h]
      by_cases hcond : 0 < i ∧ i < name.data.length - 1
      · rw [if_pos hcond]
        intro hc
        have hd : name.data.drop i = ['.', 't', 'a', 'r', '.', 'g', 'z'] :=
          congrArg String.data hc
        have h2 : name.data.drop (i + 1) = ['t', 'a', 'r', '.', 'g', 'z'] := by
          rw [← List.tail_drop, hd]
          rfl
        exact lastDotIdx_no_dot_after h '.' (by rw [h2]; simp) rfl
      · rw [if_neg hcond]
        simp

theorem FS.fileExists_iff_lookup {fs : FS} {p : FsPath} :
    fs.fileExists p = true ↔ ∃ d, fs.lookupFile p = some d := by
  unfold FS.fileExists FS.lookupFile
  constructor
  · intro h
    rw [List.any_eq_true] at h
    obtain ⟨e, he, hpe⟩ := h
    cases hv : fs.files.find? (fun e => e.1 == p) with
    | none => exact absurd hpe (List.find?_eq_none.mp hv e he)
    | some v => exact ⟨v.2, rfl⟩
  · rintro ⟨d, hd⟩
    obtain ⟨v, hv, -⟩ := Option.map_eq_some'.mp hd
    have hmem := List.mem_of_find?_eq_some hv
    have hp := List.find?_some hv
    rw [List.any_eq_true]
    exact ⟨v, hmem, hp⟩

theorem FS.fileExists_createFile_self (fs : FS) (p : FsPath) (d : FileData) :
    (fs.createFile p d).fileExists p = true := by
  simp [FS.createFile, FS.fileExists]

theorem FS.fileExists_removeFile_self (fs : FS) (p : FsPath) :
    (fs.removeFile p).fileExists p = false := by
  simp [FS.removeFile, FS.fileExists, List.any_eq_true, List.mem_filter]

theorem FS.fileExists_removeTree_false (fs : FS) (p q : FsPath)
    (h : fs.fileExists q = false) : (fs.removeTree p).fileExists q = false := by
  cases hh : (fs.removeTree p).fileExists q with
  | false => rfl
  | true =>
      exfalso
      simp only [FS.removeTree, FS.fileExists, List.any_eq_true, List.mem_filter] at hh
      obtain ⟨e, ⟨he, -⟩, hq⟩ := hh
      have h2 : fs.fileExists q = true := by
        simp only [FS.fileExists, List.any_eq_true]
        exact ⟨e, he, hq⟩
      rw [h] at h2
      cases h2

theorem FS.exists_removeTree_false (fs : FS) (p q : FsPath)
    (h : fs.exists q = false) : (fs.removeTree p).exists q = false := by
  cases hh : (fs.removeTree p).exists q with
  | false => rfl
  | true =>
      exfalso
      simp only [FS.removeTree, FS.exists, FS.fileExists, FS.dirExists, Bool.or_eq_true,
        List.any_eq_true, List.mem_filter] at hh
      have h2 : fs.exists q = true := by
        simp only [FS.exists, FS.fileExists, FS.dirExists, Bool.or_eq_true, List.any_eq_true]
        rcases hh with ⟨e, ⟨he, -⟩, hq⟩ | ⟨d, ⟨hd, -⟩, hq⟩
        · exact Or.inl ⟨e, he, hq⟩
        · exact Or.inr ⟨d, hd, hq⟩
      rw [h] at h2
      cases h2

theorem FS.exists_removeTree_self (fs : FS) (p : FsPath) :
    (fs.removeTree p).exists p = false :=
  FS.exists_removeTree_of_pre fs (isPrefixOf_self p)

theorem clean_up_stateOf (st : InstallerState) (fs : FS) :
    (clean_up st fs).stateOf = st := by
  rcases hdp : st.download_path with _ | dp
  · rcases hep : st.extract_path with _ | ep
    · simp [clean_up, hdp, hep, StepResult.stateOf]
    · by_cases h3 : fs.exists ep = true
      · by_cases h4 : fs.dirExists ep = true
        · simp [clean_up, hdp, hep, h3, h4, StepResult.stateOf]
        · simp [clean_up, hdp, hep, h3, h4, StepResult.stateOf]
      · simp [clean_up, hdp, hep, h3, StepResult.stateOf]
  · by_cases h1 : fs.exists dp = true
    · by_cases h2 : fs.fileExists dp = true
      · rcases hep : st.extract_path with _ | ep
        · simp [clean_up, hdp, hep, h1, h2, StepResult.stateOf]
        · by_cases h3 : (fs.removeFile dp).exists ep = true
          · by_cases h4 : (fs.removeFile dp).dirExists ep = true
            · simp [clean_up, hdp, hep, h1, h2, h3, h4, StepResult.stateOf]
            · simp [clean_up, hdp, hep, h1, h2, h3, h4, StepResult.stateOf]
          · simp [clean_up, hdp, hep, h1, h2, h3, StepResult.stateOf]
      · simp [clean_up, hdp, h1, h2, StepResult.stateOf]
    · rcases hep : st.extract_path with _ | ep
      · simp [clean_up, hdp, hep, h1, StepResult.stateOf]
      · by_cases h3 : fs.exists ep = true
        · by_cases h4 : fs.dirExists ep = true
          · simp [clean_up, hdp, hep, h1, h3, h4, StepResult.stateOf]
          · simp [clean_up, hdp, hep, h1, h3, h4, StepResult.stateOf]
        · simp [clean_up, hdp, hep, h1, h3, StepResult.stateOf]

theorem clean_up_noop (st : InstallerState) (fs : FS)
    (h1 : pathUnsetOrMissing fs st.download_path = true)
    (h2 : pathUnsetOrMissing fs st.extract_path = true) :
    clean_up st fs = .ok st fs := by
  unfold clean_up
  rcases hdp : st.download_path with _ | dp
  · rcases hep : st.extract_path with _ | ep
    · rfl
    · rw [hep] at h2
      simp only [pathUnsetOrMissing, Bool.not_eq_true'] at h2
      simp [h2]
  · rw [hdp] at h1
    simp only [pathUnsetOrMissing, Bool.not_eq_true'] at h1
    rcases hep : st.extract_path with _ | ep
    · simp [h1]
    · rw [hep] at h2
      simp only [pathUnsetOrMissing, Bool.not_eq_true'] at h2
      simp [h1, h2]

theorem cleanupFS_idem (st : InstallerState) (fs : FS) :
    cleanupFS st (cleanupFS st fs) = cleanupFS st fs := by
  rcases hdp : st.download_path with _ | dp
  · rcases hep : st.extract_path with _ | ep
    · simp [cleanupFS, clean_up, hdp, hep, StepResult.fsOf]
    · by_cases h3 : fs.exists ep = true
      · by_cases h4 : fs.dirExists ep = true
        · have h5 : (fs.removeTree ep).exists ep = false := FS.exists_removeTree_self fs ep
          simp [cleanupFS, clean_up, hdp, hep, h3, h4, h5, StepResult.fsOf]
        · simp [cleanupFS, clean_up, hdp, hep, h3, h4, StepResult.fsOf]
      · simp [cleanupFS, clean_up, hdp, hep, h3, StepResult.fsOf]
  · by_cases h1 : fs.exists dp = true
    · by_cases h2 : fs.fileExists dp = true
      · have hf1 : (fs.removeFile dp).fileExists dp = false :=
          FS.fileExists_removeFile_self fs dp
        rcases hep : st.extract_path with _ | ep
        · by_cases h6 : (fs.removeFile dp).exists dp = true
          · simp [cleanupFS, clean_up, hdp, hep, h1, h2, h6, hf1, StepResult.fsOf]
          · simp [cleanupFS, clean_up, hdp, hep, h1, h2, h6, StepResult.fsOf]
        · by_cases h3 : (fs.removeFile dp).exists ep = true
          · by_cases h4 : (fs.removeFile dp).dirExists ep = true
            · have h5 : ((fs.removeFile dp).removeTree ep).exists ep = false :=
                FS.exists_removeTree_self _ ep
              have hf2 : ((fs.removeFile dp).removeTree ep).fileExists dp = false :=
                FS.fileExists_removeTree_false _ ep dp hf1
              by_cases h6 : ((fs.removeFile dp).removeTree ep).exists dp = true
              · simp [cleanupFS, clean_up, hdp, hep, h1, h2, h3, h4, h5, h6, hf2,
                  StepResult.fsOf]
              · simp [cleanupFS, clean_up, hdp, hep, h1, h2, h3, h4, h5, h6, StepResult.fsOf]
            · by_cases h6 : (fs.removeFile dp).exists dp = true
              · simp [cleanupFS, clean_up, hdp, hep, h1, h2, h3, h4, h6, hf1, StepResult.fsOf]
              · simp [cleanupFS, clean_up, hdp, hep, h1, h2, h3, h4, h6, StepResult.fsOf]
          · by_cases h6 : (fs.removeFile dp).exists dp = true
            · simp [cleanupFS, clean_up, hdp, hep, h1, h2, h3, h6, hf1, StepResult.fsOf]
            · simp [cleanupFS, clean_up, hdp, hep, h1, h2, h3, h6, StepResult.fsOf]
      · simp [cleanupFS, clean_up, hdp, h1, h2, StepResult.fsOf]
    · rcases hep : st.extract_path with _ | ep
      · simp [cleanupFS, clean_up, hdp, hep, h1, StepResult.fsOf]
      · by_cases h3 : fs.exists ep = true
        · by_cases h4 : fs.dirExists ep = true
          · have h5 : (fs.removeTree ep).exists ep = false := FS.exists_removeTree_self fs ep
            have h6 : (fs.removeTree ep).exists dp = false :=
              FS.exists_removeTree_false fs ep dp (by simpa using h1)
            simp [cleanupFS, clean_up, hdp, hep, h1, h3, h4, h5, h6, StepResult.fsOf]
          · simp [cleanupFS, clean_up, hdp, hep, h1, h3, h4, StepResult.fsOf]
        · simp [cleanupFS, clean_up, hdp, hep, h1, h3, StepResult.fsOf]

theorem pySuffix_downloaded : pySuffix "geckodriver_downloaded" = "" := by decide

theorem extract_file_unsupported (st : InstallerState) (fs : FS) (dp : FsPath)
    (hdp : st.download_path = some dp)
    (h1 : pySuffix (pathName dp) ≠ ".zip") (h2 : pySuffix (pathName dp) ≠ ".tar.gz") :
    extract_file st fs =
      .err (.valueError "Unsupported file format. It must be .zip or .tar.gz.") st fs := by
  simp [extract_file, hdp, h1, h2]

theorem get_download_url_ok_shape {system : String} {st st1 : InstallerState} {url : String}
    (h : get_download_url system st = .ok (url, st1)) :
    st1 = { st with download_url := some url } := by
  unfold get_download_url at h
  dsimp only at h
  split_ifs at h
  all_goals cases h
  all_goals rfl

/-! ### Claim theorems -/

/-- C4: for each of the three supported OS identifiers, `get_download_url`
returns the fixed release URL of the mapping windows → win64 zip,
darwin/macOS → macos tar.gz, linux → linux64 tar.gz, whose suffix matches
the expected archive format for that OS, and stores that URL in the
instance state. -/
theorem C4_get_download_url_fixed_mapping (st : InstallerState) :
    (get_download_url "windows" st = .ok (winUrl, { st with download_url := some winUrl }) ∧
      strEndsWith winUrl ".zip" = true) ∧
    (get_download_url "darwin" st = .ok (macUrl, { st with download_url := some macUrl }) ∧
      strEndsWith macUrl ".tar.gz" = true) ∧
    (get_download_url "linux" st = .ok (linuxUrl, { st with download_url := some linuxUrl }) ∧
      strEndsWith linuxUrl ".tar.gz" = true) :=
  ⟨⟨rfl, by decide⟩, ⟨rfl, by decide⟩, rfl, by decide⟩

/-- C5: for every OS identifier outside windows/darwin/linux, URL
resolution fails with the unsupported-platform `OSError`; when download is
invoked on such an OS it fails the same way with state and filesystem
untouched and an empty event trace, so no network retrieval is attempted. -/
theorem C5_unsupported_platform_no_network (system : String) (net : String → Option FileData)
    (tempDir : FsPath) (st : InstallerState) (fs : FS)
    (h1 : pyLower system ≠ "windows") (h2 : pyLower system ≠ "darwin")
    (h3 : pyLower system ≠ "linux") :
    get_download_url system st = .error (.osError "Unsupported operating system.") ∧
    download_geckodriver system net tempDir st fs =
      ([], .err (.osError "Unsupported operating system.") st fs) ∧
    networkCalls (download_geckodriver system net tempDir st fs).1 = [] := by
  have hg : get_download_url system st = .error (.osError "Unsupported operating system.") := by
    simp [get_download_url, h1, h2, h3]
  refine ⟨hg, ?_, ?_⟩
  · simp [download_geckodriver, hg]
  · simp [download_geckodriver, hg, networkCalls]

theorem C5_witness :
    get_download_url "freebsd" (initState ["t"]) =
      .error (.osError "Unsupported operating system.") ∧
    download_geckodriver "freebsd" (fun _ => some .plain) ["tmp"] (initState ["t"]) FS.empty =
      ([], .err (.osError "Unsupported operating system.") (initState ["t"]) FS.empty) ∧
    networkCalls
      (download_geckodriver "freebsd" (fun _ => some .plain) ["tmp"]
        (initState ["t"]) FS.empty).1 = [] :=
  C5_unsupported_platform_no_network "freebsd" (fun _ => some .plain) ["tmp"]
    (initState ["t"]) FS.empty (by decide) (by decide) (by decide)

/-- C10: when the archive filename suffix is neither `.zip` nor `.tar.gz`,
`extract_file` raises the unsupported-format `ValueError` with the object
state (in particular `extract_path`) and the filesystem both returned
exactly as they were. -/
theorem C10_unsupported_format_frame (st : InstallerState) (fs : FS) (dp : FsPath)
    (hdp : st.download_path = some dp)
    (h1 : pySuffix (pathName dp) ≠ ".zip") (h2 : pySuffix (pathName dp) ≠ ".tar.gz") :
    extract_file st fs =
      .err (.valueError "Unsupported file format. It must be .zip or .tar.gz.") st fs :=
  extract_file_unsupported st fs dp hdp h1 h2

theorem C10_witness :
    extract_file ⟨["t"], none, some ["tmp", "geckodriver_downloaded"], none⟩ FS.empty =
      .err (.valueError "Unsupported file format. It must be .zip or .tar.gz.")
        ⟨["t"], none, some ["tmp", "geckodriver_downloaded"], none⟩ FS.empty :=
  C10_unsupported_format_frame ⟨["t"], none, some ["tmp", "geckodriver_downloaded"], none⟩
    FS.empty ["tmp", "geckodriver_downloaded"] rfl (by decide) (by decide)

/-- C2: the `.tar.gz` arm of the suffix dispatch in `extract_file` is dead
code.  `Path.suffix` of a name ending in `.tar.gz` is `".gz"`, and no name
at all has `pySuffix` equal to `".tar.gz"`, so a downloaded gzip-tar
archive (here the very name the linux release URL would produce) is
answered with the unsupported-format `ValueError` instead of being
extracted, contradicting the method's own zip-or-tar.gz contract. -/
theorem C2_targz_branch_dead :
    pySuffix (pathName ["t", "geckodriver-v0.31.0-linux64.tar.gz"]) = ".gz" ∧
    (∀ name, pySuffix name ≠ ".tar.gz") ∧
    extract_file ⟨["t"], some linuxUrl, some ["t", "geckodriver-v0.31.0-linux64.tar.gz"], none⟩
        ⟨[(["t", "geckodriver-v0.31.0-linux64.tar.gz"], .gzTarArchive ["geckodriver"])], [["t"]]⟩ =
      .err (.valueError "Unsupported file format. It must be .zip or .tar.gz.")
        ⟨["t"], some linuxUrl, some ["t", "geckodriver-v0.31.0-linux64.tar.gz"], none⟩
        ⟨[(["t", "geckodriver-v0.31.0-linux64.tar.gz"], .gzTarArchive ["geckodriver"])], [["t"]]⟩ :=
  ⟨by decide, pySuffix_ne_targz, by decide⟩

/-- C8 counterexample: the path `t/missing.txt` does not exist in the empty
filesystem, yet `extract_file` raises the unsupported-format `ValueError`,
not `FileNotFoundError` — the suffix dispatch precedes any existence
check. -/
theorem C8_counterexample_nonexistent_not_fnf :
    FS.empty.exists ["t", "missing.txt"] = false ∧
    extract_file ⟨["t"], none, some ["t", "missing.txt"], none⟩ FS.empty =
      .err (.valueError "Unsupported file format. It must be .zip or .tar.gz.")
        ⟨["t"], none, some ["t", "missing.txt"], none⟩ FS.empty ∧
    (extract_file ⟨["t"], none, some ["t", "missing.txt"], none⟩ FS.empty).isFileNotFound =
      false := by
  refine ⟨rfl, by decide, by decide⟩

/-- C8 amended: for a non-existent archive path, `extract_file` raises
`FileNotFoundError` exactly when the filename suffix is `.zip` (the only
suffix that reaches an archive open, the `.tar.gz` comparison being
unsatisfiable); for every other suffix it raises the unsupported-format
`ValueError` instead. -/
theorem C8_amended_nonexistent_dispatch (st : InstallerState) (fs : FS) (dp : FsPath)
    (hdp : st.download_path = some dp)
    (hne : fs.fileExists dp = false) (hnd : fs.dirExists dp = false) :
    (pySuffix (pathName dp) = ".zip" →
      extract_file st fs = .err (.fileNotFoundError "No such file or directory") st fs) ∧
    (pySuffix (pathName dp) ≠ ".zip" →
      extract_file st fs =
        .err (.valueError "Unsupported file format. It must be .zip or .tar.gz.") st fs) := by
  constructor
  · intro hz
    simp [extract_file, hdp, hz, hne, hnd]
  · intro hz
    simp [extract_file, hdp, hz, pySuffix_ne_targz (pathName dp)]

theorem C8_amended_witness :
    (pySuffix (pathName ["t", "a.zip"]) = ".zip" →
      extract_file ⟨["t"], none, some ["t", "a.zip"], none⟩ FS.empty =
        .err (.fileNotFoundError "No such file or directory")
          ⟨["t"], none, some ["t", "a.zip"], none⟩ FS.empty) ∧
    (pySuffix (pathName ["t", "a.zip"]) ≠ ".zip" →
      extract_file ⟨["t"], none, some ["t", "a.zip"], none⟩ FS.empty =
        .err (.valueError "Unsupported file format. It must be .zip or .tar.gz.")
          ⟨["t"], none, some ["t", "a.zip"], none⟩ FS.empty) :=
  C8_amended_nonexistent_dispatch ⟨["t"], none, some ["t", "a.zip"], none⟩ FS.empty
    ["t", "a.zip"] rfl (by decide) (by decide)

/-- C9: `clean_up` is idempotent and safe.  When `download_path` and
`extract_path` are unset or point at non-existent paths it returns normally
and changes nothing; in every case it leaves the object state unchanged,
and a second call leaves the filesystem exactly where the first call left
it, because existence is checked before each deletion. -/
theorem C9_clean_up_idempotent_safe (st : InstallerState) (fs : FS) :
    (pathUnsetOrMissing fs st.download_path = true →
      pathUnsetOrMissing fs st.extract_path = true →
      clean_up st fs = .ok st fs) ∧
    cleanupFS st (cleanupFS st fs) = cleanupFS st fs ∧
    (clean_up st fs).stateOf = st :=
  ⟨fun h1 h2 => clean_up_noop st fs h1 h2, cleanupFS_idem st fs, clean_up_stateOf st fs⟩

theorem C9_witness :
    (pathUnsetOrMissing FS.empty (initState ["t"]).download_path = true →
      pathUnsetOrMissing FS.empty (initState ["t"]).extract_path = true →
      clean_up (initState ["t"]) FS.empty = .ok (initState ["t"]) FS.empty) ∧
    cleanupFS (initState ["t"]) (cleanupFS (initState ["t"]) FS.empty) =
      cleanupFS (initState ["t"]) FS.empty ∧
    (clean_up (initState ["t"]) FS.empty).stateOf = initState ["t"] :=
  C9_clean_up_idempotent_safe (initState ["t"]) FS.empty

/-- C6: whenever `download_geckodriver` returns normally, the stored
`download_path` is the fixed name inside the temporary directory, and that
file no longer exists: the `TemporaryDirectory` scope closed inside the
function and removed the directory with its contents, so the subsequent
extract step reads a path that is gone. -/
theorem C6_download_path_gone_after_download (system : String)
    (net : String → Option FileData) (tempDir : FsPath) (st : InstallerState) (fs : FS)
    (s1 : InstallerState) (f1 : FS)
    (h : (download_geckodriver system net tempDir st fs).2 = .ok s1 f1) :
    s1.download_path = some (tempDir ++ ["geckodriver_downloaded"]) ∧
    f1.exists (tempDir ++ ["geckodriver_downloaded"]) = false := by
  unfold download_geckodriver at h
  cases hg : get_download_url system st with
  | error e =>
      rw [hg] at h
      cases h
  | ok p =>
      rw [hg] at h
      obtain ⟨url, st1⟩ := p
      dsimp only at h
      cases hn : net url with
      | none =>
          rw [hn] at h
          cases h
      | some d =>
          rw [hn] at h
          simp only [StepResult.ok.injEq] at h
          obtain ⟨hs, hf⟩ := h
          constructor
          · rw [← hs]
          · rw [← hf]
            exact FS.exists_removeTree_of_pre _ (isPrefixOf_append_self tempDir _)

theorem C6_witness :
    (⟨["t"], some linuxUrl, some ["tmp", "geckodriver_downloaded"], none⟩ :
        InstallerState).download_path = some (["tmp"] ++ ["geckodriver_downloaded"]) ∧
    FS.empty.exists (["tmp"] ++ ["geckodriver_downloaded"]) = false :=
  C6_download_path_gone_after_download "linux" (fun _ => some .plain) ["tmp"]
    (initState ["t"]) FS.empty
    ⟨["t"], some linuxUrl, some ["tmp", "geckodriver_downloaded"], none⟩ FS.empty (by decide)

/-- C7 counterexample: on the linux identifier with the canonical
post-extraction layout (staging directory `t/geckodriver` holding the
binary `geckodriver`), the binary is present, yet `move_geckodriver`
raises `shutil.Error` instead of moving it: the destination
`target_dir/geckodriver` is the staging directory itself, so `shutil.move`
resolves the real destination to the source and refuses.  No file ends up
at `target_dir/geckodriver`. -/
theorem C7_counterexample_nonwindows_move_fails :
    FS.fileExists ⟨[(["t", "geckodriver", "geckodriver"], .plain)], [["t"], ["t", "geckodriver"]]⟩
      (["t", "geckodriver"] ++ ["geckodriver"]) = true ∧
    move_geckodriver "linux" ⟨["t"], none, none, some ["t", "geckodriver"]⟩
        ⟨[(["t", "geckodriver", "geckodriver"], .plain)], [["t"], ["t", "geckodriver"]]⟩ =
      .err (.shutilError "Destination path already exists")
        ⟨["t"], none, none, some ["t", "geckodriver"]⟩
        ⟨[(["t", "geckodriver", "geckodriver"], .plain)], [["t"], ["t", "geckodriver"]]⟩ ∧
    FS.fileExists ⟨[(["t", "geckodriver", "geckodriver"], .plain)], [["t"], ["t", "geckodriver"]]⟩
      (["t"] ++ ["geckodriver"]) = false := by
  refine ⟨by decide, by decide, by decide⟩

/-- C7 amended: `move_geckodriver` uses the platform-dependent binary
filename (`geckodriver`, or `geckodriver.exe` on Windows).  If that file is
absent from the staging directory it fails with `FileNotFoundError`; if it
is present and `target_dir/<name>` is not an existing directory, the binary
is moved to `target_dir/<name>`.  (When `target_dir/<name>` is an existing
directory — as it always is for the staging layout on non-Windows, where it
is the staging directory itself — `shutil.move` raises instead, see the
counterexample.) -/
theorem C7_amended_move_binary (system : String) (st : InstallerState) (fs : FS)
    (ep : FsPath) (d : FileData) (hep : st.extract_path = some ep) :
    binName "windows" = "geckodriver.exe" ∧ binName "linux" = "geckodriver" ∧
    (fs.exists (ep ++ [binName system]) = false →
      move_geckodriver system st fs =
        .err (.fileNotFoundError "The file was not found in the extraction path.") st fs) ∧
    (fs.lookupFile (ep ++ [binName system]) = some d →
      fs.dirExists (st.target_dir ++ [binName system]) = false →
      move_geckodriver system st fs =
        .ok st ((fs.removeFile (ep ++ [binName system])).createFile
          (st.target_dir ++ [binName system]) d) ∧
      ((fs.removeFile (ep ++ [binName system])).createFile
        (st.target_dir ++ [binName system]) d).fileExists
          (st.target_dir ++ [binName system]) = true) := by
  refine ⟨by decide, by decide, ?_, ?_⟩
  · intro habs
    simp [move_geckodriver, hep, habs]
  · intro hlk hdst
    have hsrc : fs.fileExists (ep ++ [binName system]) = true :=
      FS.fileExists_iff_lookup.mpr ⟨d, hlk⟩
    have hex : fs.exists (ep ++ [binName system]) = true := by
      simp [FS.exists, hsrc]
    refine ⟨?_, FS.fileExists_createFile_self _ _ _⟩
    simp [move_geckodriver, hep, hex, shutilMove, hdst, osRename, hlk]

theorem C7_amended_witness :
    binName "windows" = "geckodriver.exe" ∧ binName "linux" = "geckodriver" ∧
    ((⟨[(["t", "geckodriver", "geckodriver.exe"], .plain)], [["t", "geckodriver"]]⟩ : FS).exists
        (["t", "geckodriver"] ++ [binName "windows"]) = false →
      move_geckodriver "windows" ⟨["t"], none, none, some ["t", "geckodriver"]⟩
          ⟨[(["t", "geckodriver", "geckodriver.exe"], .plain)], [["t", "geckodriver"]]⟩ =
        .err (.fileNotFoundError "The file was not found in the extraction path.")
          ⟨["t"], none, none, some ["t", "geckodriver"]⟩
          ⟨[(["t", "geckodriver", "geckodriver.exe"], .plain)], [["t", "geckodriver"]]⟩) ∧
    ((⟨[(["t", "geckodriver", "geckodriver.exe"], .plain)], [["t", "geckodriver"]]⟩ : FS).lookupFile
        (["t", "geckodriver"] ++ [binName "windows"]) = some .plain →
      (⟨[(["t", "geckodriver", "geckodriver.exe"], .plain)], [["t", "geckodriver"]]⟩ : FS).dirExists
        ((["t"] : FsPath) ++ [binName "windows"]) = false →
      move_geckodriver "windows" ⟨["t"], none, none, some ["t", "geckodriver"]⟩
          ⟨[(["t", "geckodriver", "geckodriver.exe"], .plain)], [["t", "geckodriver"]]⟩ =
        .ok ⟨["t"], none, none, some ["t", "geckodriver"]⟩
          (((⟨[(["t", "geckodriver", "geckodriver.exe"], .plain)],
              [["t", "geckodriver"]]⟩ : FS).removeFile
            (["t", "geckodriver"] ++ [binName "windows"])).createFile
            ((["t"] : FsPath) ++ [binName "windows"]) .plain) ∧
      (((⟨[(["t", "geckodriver", "geckodriver.exe"], .plain)],
          [["t", "geckodriver"]]⟩ : FS).removeFile
          (["t", "geckodriver"] ++ [binName "windows"])).createFile
          ((["t"] : FsPath) ++ [binName "windows"]) .plain).fileExists
          ((["t"] : FsPath) ++ [binName "windows"]) = true) :=
  C7_amended_move_binary "windows" ⟨["t"], none, none, some ["t", "geckodriver"]⟩
    ⟨[(["t", "geckodriver", "geckodriver.exe"], .plain)], [["t", "geckodriver"]]⟩
    ["t", "geckodriver"] .plain rfl

theorem install_init_cases (system : String) (net : String → Option FileData)
    (tempDir target : FsPath) (fs : FS) :
    (get_download_url system (initState target) =
        .error (.osError "Unsupported operating system.") ∧
      download_geckodriver system net tempDir (initState target) fs =
        ([], .err (.osError "Unsupported operating system.") (initState target) fs) ∧
      install system net tempDir (initState target) fs =
        ([.ranStep .download, .reported (.osError "Unsupported operating system."),
          .ranStep .cleanup], .ok (initState target) fs)) ∨
    (∃ url,
      get_download_url system (initState target) =
        .ok (url, { initState target with download_url := some url }) ∧
      ((net url = none ∧
        download_geckodriver system net tempDir (initState target) fs =
          ([.network url], .err (.runtimeError "Error downloading GeckoDriver")
            ⟨target, some url, some (tempDir ++ ["geckodriver_downloaded"]), none⟩
            ((fs.createDir tempDir).removeTree tempDir)) ∧
        install system net tempDir (initState target) fs =
          ([.ranStep .download, .network url,
            .reported (.runtimeError "Error downloading GeckoDriver"), .ranStep .cleanup],
            .ok ⟨target, some url, some (tempDir ++ ["geckodriver_downloaded"]), none⟩
              ((fs.createDir tempDir).removeTree tempDir))) ∨
      (∃ d, net url = some d ∧
        download_geckodriver system net tempDir (initState target) fs =
          ([.network url], .ok
            ⟨target, some url, some (tempDir ++ ["geckodriver_downloaded"]), none⟩
            (((fs.createDir tempDir).createFile
              (tempDir ++ ["geckodriver_downloaded"]) d).removeTree tempDir)) ∧
        install system net tempDir (initState target) fs =
          ([.ranStep .download, .network url, .ranStep .extract,
            .reported (.valueError "Unsupported file format. It must be .zip or .tar.gz."),
            .ranStep .cleanup],
            .ok ⟨target, some url, some (tempDir ++ ["geckodriver_downloaded"]), none⟩
              (((fs.createDir tempDir).createFile
                (tempDir ++ ["geckodriver_downloaded"]) d).removeTree tempDir))))) := by
  cases hg : get_download_url system (initState target) with
  | error e =>
      have he : e = .osError "Unsupported operating system." := by
        unfold get_download_url at hg
        dsimp only at hg
        split_ifs at hg
        simp_all
      subst he
      left
      have hdl : download_geckodriver system net tempDir (initState target) fs =
          ([], .err (.osError "Unsupported operating system.") (initState target) fs) := by
        unfold download_geckodriver
        rw [hg]
      refine ⟨rfl, hdl, ?_⟩
      unfold install
      rw [hdl]
      dsimp only
      rw [clean_up_noop (initState target) fs rfl rfl]
      rfl
  | ok p =>
      obtain ⟨url, st1⟩ := p
      have hst1 := get_download_url_ok_shape hg
      subst hst1
      right
      refine ⟨url, rfl, ?_⟩
      cases hn : net url with
      | none =>
          left
          have hdl : download_geckodriver system net tempDir (initState target) fs =
              ([.network url], .err (.runtimeError "Error downloading GeckoDriver")
                ⟨target, some url, some (tempDir ++ ["geckodriver_downloaded"]), none⟩
                ((fs.createDir tempDir).removeTree tempDir)) := by
            unfold download_geckodriver
            rw [hg]
            dsimp only
            rw [hn]
            rfl
          refine ⟨rfl, hdl, ?_⟩
          unfold install
          rw [hdl]
          dsimp only
          have hcl : clean_up
              ⟨target, some url, some (tempDir ++ ["geckodriver_downloaded"]), none⟩
              ((fs.createDir tempDir).removeTree tempDir) =
              .ok ⟨target, some url, some (tempDir ++ ["geckodriver_downloaded"]), none⟩
                ((fs.createDir tempDir).removeTree tempDir) := by
            apply clean_up_noop
            · simp [pathUnsetOrMissing,
                FS.exists_removeTree_of_pre _ (isPrefixOf_append_self tempDir _)]
            · rfl
          rw [hcl]
          rfl
      | some d =>
          right
          have hdl : download_geckodriver system net tempDir (initState target) fs =
              ([.network url], .ok
                ⟨target, some url, some (tempDir ++ ["geckodriver_downloaded"]), none⟩
                (((fs.createDir tempDir).createFile
                  (tempDir ++ ["geckodriver_downloaded"]) d).removeTree tempDir)) := by
            unfold download_geckodriver
            rw [hg]
            dsimp only
            rw [hn]
            rfl
          refine ⟨d, rfl, hdl, ?_⟩
          unfold install
          rw [hdl]
          dsimp only
          have hex : extract_file
              ⟨target, some url, some (tempDir ++ ["geckodriver_downloaded"]), none⟩
              (((fs.createDir tempDir).createFile
                (tempDir ++ ["geckodriver_downloaded"]) d).removeTree tempDir) =
              .err (.valueError "Unsupported file format. It must be .zip or .tar.gz.")
                ⟨target, some url, some (tempDir ++ ["geckodriver_downloaded"]), none⟩
                (((fs.createDir tempDir).createFile
                  (tempDir ++ ["geckodriver_downloaded"]) d).removeTree tempDir) := by
            apply extract_file_unsupported _ _ (tempDir ++ ["geckodriver_downloaded"]) rfl
            · rw [pathName_concat, pySuffix_downloaded]
              decide
            · rw [pathName_concat, pySuffix_downloaded]
              decide
          rw [hex]
          dsimp only
          have hcl : clean_up
              ⟨target, some url, some (tempDir ++ ["geckodriver_downloaded"]), none⟩
              (((fs.createDir tempDir).createFile
                (tempDir ++ ["geckodriver_downloaded"]) d).removeTree tempDir) =
              .ok ⟨target, some url, some (tempDir ++ ["geckodriver_downloaded"]), none⟩
                (((fs.createDir tempDir).createFile
                  (tempDir ++ ["geckodriver_downloaded"]) d).removeTree tempDir) := by
            apply clean_up_noop
            · simp [pathUnsetOrMissing,
                FS.exists_removeTree_of_pre _ (isPrefixOf_append_self tempDir _)]
            · rfl
          rw [hcl]
          rfl

/-- C1: `install` runs download, extract, move, clean_up in that order (the
steps entered are always an in-order subsequence of that pipeline, and the
full pipeline whenever no error is reported); whenever a step raises, the
exception is caught and reported, `clean_up` is the last thing run, and
`install` returns normally — the result is `ok` on every execution from a
freshly constructed installer. -/
theorem C1_install_catches_and_orders (system : String) (net : String → Option FileData)
    (tempDir target : FsPath) (fs : FS) :
    ((install system net tempDir (initState target) fs).2).isOk = true ∧
    List.Sublist (stepsOf (install system net tempDir (initState target) fs).1)
      [StepName.download, StepName.extract, StepName.move, StepName.cleanup] ∧
    (errReported (install system net tempDir (initState target) fs).1 = true →
      ((install system net tempDir (initState target) fs).1).getLast? =
        some (.ranStep .cleanup)) ∧
    (errReported (install system net tempDir (initState target) fs).1 = false →
      stepsOf (install system net tempDir (initState target) fs).1 =
        [StepName.download, StepName.extract, StepName.move, StepName.cleanup]) := by
  rcases install_init_cases system net tempDir target fs with
    ⟨-, -, hi⟩ | ⟨url, -, ⟨-, -, hi⟩ | ⟨d, -, -, hi⟩⟩ <;> rw [hi]
  · exact ⟨rfl,
      (by decide : List.Sublist [StepName.download, StepName.cleanup]
        [StepName.download, StepName.extract, StepName.move, StepName.cleanup]),
      fun _ => rfl, fun h => by simp [errReported] at h⟩
  · exact ⟨rfl,
      (by decide : List.Sublist [StepName.download, StepName.cleanup]
        [StepName.download, StepName.extract, StepName.move, StepName.cleanup]),
      fun _ => rfl, fun h => by simp [errReported] at h⟩
  · exact ⟨rfl,
      (by decide : List.Sublist [StepName.download, StepName.extract, StepName.cleanup]
        [StepName.download, StepName.extract, StepName.move, StepName.cleanup]),
      fun _ => rfl, fun h => by simp [errReported] at h⟩

theorem C1_witness :
    ((install "linux" (fun _ => some .plain) ["tmp"] (initState ["t"]) FS.empty).2).isOk =
      true ∧
    List.Sublist (stepsOf (install "linux" (fun _ => some .plain) ["tmp"] (initState ["t"])
        FS.empty).1)
      [StepName.download, StepName.extract, StepName.move, StepName.cleanup] ∧
    (errReported (install "linux" (fun _ => some .plain) ["tmp"] (initState ["t"])
        FS.empty).1 = true →
      ((install "linux" (fun _ => some .plain) ["tmp"] (initState ["t"]) FS.empty).1).getLast? =
        some (.ranStep .cleanup)) ∧
    (errReported (install "linux" (fun _ => some .plain) ["tmp"] (initState ["t"])
        FS.empty).1 = false →
      stepsOf (install "linux" (fun _ => some .plain) ["tmp"] (initState ["t"]) FS.empty).1 =
        [StepName.download, StepName.extract, StepName.move, StepName.cleanup]) :=
  C1_install_catches_and_orders "linux" (fun _ => some .plain) ["tmp"] ["t"] FS.empty

/-- C3: the download step stores the archive under the fixed name
`geckodriver_downloaded`, whose suffix is empty, so whenever download
returns normally the extract step raises the unsupported-format
`ValueError`; consequently `install` never enters the move step, always
reports an error, and leaves the filesystem exactly as it found it (given a
fresh temporary directory) — no driver binary is ever placed in the target
directory. -/
theorem C3_install_never_installs (system : String) (net : String → Option FileData)
    (tempDir target : FsPath) (fs : FS) (hfresh : fs.fresh tempDir = true) :
    pySuffix "geckodriver_downloaded" = "" ∧
    ((afterDownload system net tempDir target fs).isOk = true →
      extract_file (afterDownload system net tempDir target fs).stateOf
          (afterDownload system net tempDir target fs).fsOf =
        .err (.valueError "Unsupported file format. It must be .zip or .tar.gz.")
          (afterDownload system net tempDir target fs).stateOf
          (afterDownload system net tempDir target fs).fsOf) ∧
    StepName.move ∉ stepsOf (install system net tempDir (initState target) fs).1 ∧
    errReported (install system net tempDir (initState target) fs).1 = true ∧
    ((install system net tempDir (initState target) fs).2).fsOf = fs := by
  have hrt1 : (fs.createDir tempDir).removeTree tempDir = fs := by
    rw [FS.removeTree_createDir_self, FS.removeTree_eq_of_fresh hfresh]
  have hrt2 : ∀ d : FileData,
      ((fs.createDir tempDir).createFile (tempDir ++ ["geckodriver_downloaded"]) d).removeTree
        tempDir = fs := by
    intro d
    rw [FS.removeTree_createFile_below _ d (isPrefixOf_append_self tempDir _),
      FS.removeTree_createDir_self, FS.removeTree_eq_of_fresh hfresh]
  rcases install_init_cases system net tempDir target fs with
    ⟨-, hdl, hi⟩ | ⟨url, -, ⟨-, hdl, hi⟩ | ⟨d, -, hdl, hi⟩⟩
  · refine ⟨by decide, ?_, ?_, ?_, ?_⟩
    · intro hok
      simp only [afterDownload, hdl] at hok
      simp [StepResult.isOk] at hok
    · rw [hi]
      exact (by decide : StepName.move ∉ [StepName.download, StepName.cleanup])
    · rw [hi]
      rfl
    · rw [hi]
      rfl
  · refine ⟨by decide, ?_, ?_, ?_, ?_⟩
    · intro hok
      simp only [afterDownload, hdl] at hok
      simp [StepResult.isOk] at hok
    · rw [hi]
      exact (by decide : StepName.move ∉ [StepName.download, StepName.cleanup])
    · rw [hi]
      rfl
    · rw [hi]
      exact hrt1
  · refine ⟨by decide, ?_, ?_, ?_, ?_⟩
    · intro hok
      simp only [afterDownload, hdl]
      dsimp only [StepResult.stateOf, StepResult.fsOf]
      exact extract_file_unsupported _ _ (tempDir ++ ["geckodriver_downloaded"]) rfl
        (by rw [pathName_concat, pySuffix_downloaded]; decide)
        (by rw [pathName_concat, pySuffix_downloaded]; decide)
    · rw [hi]
      exact (by decide : StepName.move ∉ [StepName.download, StepName.extract, StepName.cleanup])
    · rw [hi]
      rfl
    · rw [hi]
      exact hrt2 d

theorem C3_witness :
    pySuffix "geckodriver_downloaded" = "" ∧
    ((afterDownload "linux" (fun _ => some .plain) ["tmp"] ["t"] FS.empty).isOk = true →
      extract_file (afterDownload "linux" (fun _ => some .plain) ["tmp"] ["t"] FS.empty).stateOf
          (afterDownload "linux" (fun _ => some .plain) ["tmp"] ["t"] FS.empty).fsOf =
        .err (.valueError "Unsupported file format. It must be .zip or .tar.gz.")
          (afterDownload "linux" (fun _ => some .plain) ["tmp"] ["t"] FS.empty).stateOf
          (afterDownload "linux" (fun _ => some .plain) ["tmp"] ["t"] FS.empty).fsOf) ∧
    StepName.move ∉
      stepsOf (install "linux" (fun _ => some .plain) ["tmp"] (initState ["t"]) FS.empty).1 ∧
    errReported (install "linux" (fun _ => some .plain) ["tmp"] (initState ["t"])
      FS.empty).1 = true ∧
    ((install "linux" (fun _ => some .plain) ["tmp"] (initState ["t"]) FS.empty).2).fsOf =
      FS.empty :=
  C3_install_never_installs "linux" (fun _ => some .plain) ["tmp"] ["t"] FS.empty (by decide)

end Gecko

-- sanity examples (removed markers): keep as plain examples
example : Gecko.pySuffix "geckodriver_downloaded" = "" := by decide
example : Gecko.pySuffix "archive.zip" = ".zip" := by decide
example : Gecko.pySuffix "geckodriver-v0.31.0-linux64.tar.gz" = ".gz" := by decide
example : Gecko.pySuffix ".bashrc" = "" := by decide
example : Gecko.pySuffix "foo." = "" := by decide
